import Mathlib

/-!
Verification development for the interpolice_api citation-penalty engine.

Shallow embedding of `src/modules/citations/citations.model.js` and the
create-citation path of `src/modules/citations/citations.controller.js`.

Conventions of the embedding:
* JavaScript numbers are modelled as `Int` (every value the penalty ladder
  produces is an exact integer; `400.00` is the integer `400`).
* Database identifiers are `Nat`.
* The database is a `DBState` record of in-memory tables; wall-clock
  `date`/`time` columns are omitted (no claim constrains them).
* The MySQL transaction of `createCitationDB` is modelled by working on a
  copy of the state and either committing it (returning the copy) or
  rolling back (returning the original state).  Storage faults during
  `beginTransaction` and the two inserts are injected through a `TxFault`
  parameter so that rollback and connection-release behaviour are
  observable.  In the source, `getConnection`/`beginTransaction`
  (lines 229-230) sit *outside* the `try`/`finally` that starts at line
  232, so a `beginTransaction` rejection exits with the acquired
  connection never released; the model keeps that path distinct.  (A
  `getConnection` rejection acquires nothing, so there is nothing to
  release on that path; it is not modelled.)
-/

/-- Penalty outcome, mirroring the object literal built by
`calculatePenalty` in `citations.model.js` (lines 159-167). -/
structure Penalty where
  citation_number : Int
  fine_amount : Int
  civic_course_hours : Int
  civic_work_days : Int
  jail_days : Int
  creates_criminal_record : Bool
  penalty_description : String
deriving Repr, DecidableEq

/-- `calculatePenalty` from `citations.model.js` lines 156-198.  The
`switch (citationNumber)` is rendered as an if-chain on the same
scrutinee; every branch performs exactly the field updates the source
performs (note: the `case 3` branch does not touch `fine_amount`). -/
def calculatePenalty (previousCitations : Int) : Penalty :=
  let citationNumber : Int := previousCitations + 1
  let penalty : Penalty :=
    { citation_number := citationNumber
      fine_amount := 400
      civic_course_hours := 48
      civic_work_days := 0
      jail_days := 0
      creates_criminal_record := false
      penalty_description := "" }
  if citationNumber = 1 then
    { penalty with
        penalty_description :=
          "Primera amonestación: $400 + curso de 48 horas de normas cívicas" }
  else if citationNumber = 2 then
    { penalty with
        civic_work_days := 2
        penalty_description :=
          "Segunda amonestación: $400 + curso de 48 horas + 2 días de trabajo cívico" }
  else if citationNumber = 3 then
    { penalty with
        civic_course_hours := 0
        civic_work_days := 0
        jail_days := 8
        creates_criminal_record := true
        penalty_description :=
          "Tercera amonestación: 8 días de cárcel + registro en antecedentes penales" }
  else
    let jailDays : Int := 15 + (citationNumber - 3) * 5
    { penalty with
        fine_amount := 0
        civic_course_hours := 0
        jail_days := jailDays
        creates_criminal_record := true
        penalty_description :=
          "Múltiples amonestaciones (" ++ toString citationNumber ++ "): " ++
            toString jailDays ++
            " días de cárcel + registro en antecedentes penales" }

/-- A persisted `citations` row (the `date` column, always the wall
clock at creation, is omitted: no claim constrains it). -/
structure CitationRow where
  citizen_id : Nat
  description : String
  fine_amount : Int
deriving Repr, DecidableEq

/-- A persisted `criminal_records` row (again without the wall-clock
`date`/`time` columns). -/
structure CriminalRecordRow where
  citizen_id : Nat
  location : Nat
  description : String
  crime_type : String
deriving Repr, DecidableEq

/-- The slice of the database the citation module touches. -/
structure DBState where
  citizens : List Nat
  citations : List CitationRow
  criminal_records : List CriminalRecordRow
deriving Repr, DecidableEq

/-- Caller-supplied body of `POST .../citations`.  `createCitationDB`
reads only `citizen_id` and `description`; a caller-supplied
`fine_amount` field is carried here so that ignoring it is provable. -/
structure CitationInput where
  citizen_id : Nat
  description : String
  fine_amount : Option Int
deriving Repr, DecidableEq

/-- `checkCitizenExistsDB` (lines 432-438): membership of the id in the
`citizens` table. -/
def checkCitizenExistsDB (db : DBState) (citizenId : Nat) : Bool :=
  db.citizens.contains citizenId

/-- `countCitationsByCitizenDB` (lines 143-149): `COUNT(*)` over the
citizen's rows. -/
def countCitationsByCitizenDB (db : DBState) (citizenId : Nat) : Nat :=
  (db.citations.filter (fun c => c.citizen_id == citizenId)).length

/-- The automatic criminal-record row built inside `createCitationDB`
(lines 238-245): default location 1, system-generated description
embedding the ordinal and the citation's description, fixed crime-type
label. -/
def autoCriminalRecord (citizenId : Nat) (ordinal : Int) (description : String) :
    CriminalRecordRow :=
  { citizen_id := citizenId
    location := 1
    description :=
      "Registro automático por acumulación de " ++ toString ordinal ++
        " citaciones menores. Última infracción: " ++ description
    crime_type := "Acumulación de citaciones menores" }

/-- Fault injection for the storage calls of the transactional phase of
`createCitationDB`: no fault, `beginTransaction` rejects (line 230,
outside the `try`/`finally`), the citation insert throws, or the
criminal-record insert throws. -/
inductive TxFault where
  | noFault
  | failBeginTransaction
  | failCitationInsert
  | failRecordInsert
deriving Repr, DecidableEq

/-- The object `createCitationDB` resolves with on success
(lines 253-257). -/
structure CreateResult where
  insertId : Nat
  penalty : Penalty
  criminal_record_created : Bool
deriving Repr, DecidableEq

/-- The two errors the coordinator can propagate: the citizen-not-found
throw of line 211, or a storage error rethrown after rollback. -/
inductive CitationError where
  | citizenNotFound
  | storageError
deriving Repr, DecidableEq

/-- Observable outcome of one `createCitationDB` call: the value or
error it settles with, the database state after the call, whether a
pooled connection was acquired (`getConnection`, line 229), whether a
transaction was opened (`beginTransaction`, line 230), and whether the
connection was released (the `finally` of lines 263-266 — which only
guards the `try` starting at line 232, not the acquisition itself). -/
structure ExecTrace where
  result : Except CitationError CreateResult
  finalState : DBState
  connAcquired : Bool
  txOpened : Bool
  connReleased : Bool
deriving Repr

/-- `createCitationDB` (lines 207-267).  The MySQL transaction is
modelled by building the committed state from `db` and returning it on
commit, or returning `db` unchanged on rollback; `fault` injects a
rejection at `beginTransaction` or a throw at either insert.  Because
`beginTransaction` (line 230) runs before the `try` whose `finally`
releases the connection (lines 232-266), its failure path ends with
`connAcquired` but not `connReleased`.  `insertId` is the index the
appended row gets in the `citations` table. -/
def createCitationDB (db : DBState) (citationData : CitationInput) (fault : TxFault) :
    ExecTrace :=
  if checkCitizenExistsDB db citationData.citizen_id = false then
    { result := Except.error CitationError.citizenNotFound
      finalState := db
      connAcquired := false
      txOpened := false
      connReleased := false }
  else
    let previousCitations := countCitationsByCitizenDB db citationData.citizen_id
    let penalty := calculatePenalty (previousCitations : Int)
    let newCitation : CitationRow :=
      { citizen_id := citationData.citizen_id
        description := citationData.description
        fine_amount := penalty.fine_amount }
    if fault = TxFault.failBeginTransaction then
      { result := Except.error CitationError.storageError
        finalState := db
        connAcquired := true
        txOpened := false
        connReleased := false }
    else if fault = TxFault.failCitationInsert then
      { result := Except.error CitationError.storageError
        finalState := db
        connAcquired := true
        txOpened := true
        connReleased := true }
    else
      let afterCitation : DBState := { db with citations := db.citations ++ [newCitation] }
      if penalty.creates_criminal_record = true then
        if fault = TxFault.failRecordInsert then
          { result := Except.error CitationError.storageError
            finalState := db
            connAcquired := true
            txOpened := true
            connReleased := true }
        else
          let afterRecord : DBState :=
            { afterCitation with
                criminal_records := afterCitation.criminal_records ++
                  [autoCriminalRecord citationData.citizen_id penalty.citation_number
                    citationData.description] }
          { result := Except.ok
              { insertId := afterRecord.citations.length
                penalty := penalty
                criminal_record_created := penalty.creates_criminal_record }
            finalState := afterRecord
            connAcquired := true
            txOpened := true
            connReleased := true }
      else
        { result := Except.ok
            { insertId := afterCitation.citations.length
              penalty := penalty
              criminal_record_created := penalty.creates_criminal_record }
          finalState := afterCitation
          connAcquired := true
          txOpened := true
          connReleased := true }

/-- The part of the HTTP controller response the claims constrain:
status code, the `penalty_details` object (the controller's own
`calculatePenalty` result), and `automatic_actions.criminal_record_created`. -/
structure ControllerResponse where
  statusCode : Nat
  penalty_details : Option Penalty
  criminal_record_created : Option Bool
deriving Repr, DecidableEq

/-- `createCitation` from `citations.controller.js` (lines 114-184):
it recomputes the prior-citation count and penalty itself (lines
123-124) before calling `createCitationDB`, then answers 202/201 on
success (the criminal-record flag from the model result), 400 when the
thrown message contains the not-found marker, 500 otherwise.  Returns
the response together with the database state after the call. -/
def createCitation (db : DBState) (citationData : CitationInput) (fault : TxFault) :
    ControllerResponse × DBState :=
  let previousCitations := countCitationsByCitizenDB db citationData.citizen_id
  let penalty := calculatePenalty (previousCitations : Int)
  let t := createCitationDB db citationData fault
  match t.result with
  | Except.ok r =>
      ({ statusCode := if r.criminal_record_created then 202 else 201
         penalty_details := some penalty
         criminal_record_created := some r.criminal_record_created }, t.finalState)
  | Except.error CitationError.citizenNotFound =>
      ({ statusCode := 400
         penalty_details := none
         criminal_record_created := none }, t.finalState)
  | Except.error CitationError.storageError =>
      ({ statusCode := 500
         penalty_details := none
         criminal_record_created := none }, t.finalState)

/-- The record-creation flag is set exactly from the third citation on
(for non-negative prior counts). -/
theorem calculatePenalty_creates_iff (n : Nat) :
    (calculatePenalty (n : Int)).creates_criminal_record = true ↔ 2 ≤ n := by
  simp only [calculatePenalty]
  split_ifs with h1 h2 h3 <;> simp <;> omega

/-- C1: the spec (and the module's own header comment) say the 3rd
citation carries fine 0, but the `case 3` branch of the source never
resets `fine_amount`, so `calculatePenalty(2)` yields fine 400.  This
theorem evaluates the embedding at the failing input: every field is as
the claim states except `fine_amount`, which is 400, not 0. -/
theorem c1_third_citation_fine_is_400 :
    (calculatePenalty 2).citation_number = 3 ∧
    (calculatePenalty 2).fine_amount = 400 ∧
    (calculatePenalty 2).fine_amount ≠ 0 ∧
    (calculatePenalty 2).civic_course_hours = 0 ∧
    (calculatePenalty 2).civic_work_days = 0 ∧
    (calculatePenalty 2).jail_days = 8 ∧
    (calculatePenalty 2).creates_criminal_record = true := by
  decide

/-- C5 counterexample: `calculatePenalty` does not reject a negative
prior-citation count; at `-1` it falls into the `default` branch and
silently returns a business outcome (fine 0, jail 0, record flag set). -/
theorem c5_counterexample_negative_input_returns_outcome :
    (calculatePenalty (-1)).citation_number = 0 ∧
    (calculatePenalty (-1)).fine_amount = 0 ∧
    (calculatePenalty (-1)).civic_course_hours = 0 ∧
    (calculatePenalty (-1)).civic_work_days = 0 ∧
    (calculatePenalty (-1)).jail_days = 0 ∧
    (calculatePenalty (-1)).creates_criminal_record = true := by
  decide

/-- C5 (amended): for every negative prior-citation count the function
does not fail; it returns the `default`-branch outcome with fine 0,
course hours 0, work days 0, jail days `15 + 5*((n+1)-3)` and the
criminal-record flag set. -/
theorem c5_negative_input_falls_into_default_branch (n : Int) (h : n < 0) :
    (calculatePenalty n).citation_number = n + 1 ∧
    (calculatePenalty n).fine_amount = 0 ∧
    (calculatePenalty n).civic_course_hours = 0 ∧
    (calculatePenalty n).civic_work_days = 0 ∧
    (calculatePenalty n).jail_days = 15 + (n + 1 - 3) * 5 ∧
    (calculatePenalty n).creates_criminal_record = true := by
  simp only [calculatePenalty]
  split_ifs with h1 h2 h3 <;> simp_all <;> omega

/-- Witness for the amended C5 theorem at `n = -1`. -/
theorem c5_negative_input_witness :
    (-1 : Int) < 0 ∧
    ((calculatePenalty (-1)).citation_number = (-1 : Int) + 1 ∧
     (calculatePenalty (-1)).fine_amount = 0 ∧
     (calculatePenalty (-1)).civic_course_hours = 0 ∧
     (calculatePenalty (-1)).civic_work_days = 0 ∧
     (calculatePenalty (-1)).jail_days = 15 + ((-1 : Int) + 1 - 3) * 5 ∧
     (calculatePenalty (-1)).creates_criminal_record = true) :=
  ⟨by decide, c5_negative_input_falls_into_default_branch (-1) (by decide)⟩

/-- C6: for every ordinal `n > 3` (prior count `n - 1`) the outcome is
fine 0, course hours 0, work days 0, jail days `15 + 5*(n-3)`, record
flag set, and the ordinal is reported back as `citation_number`. -/
theorem c6_beyond_third_citation (n : Int) (h : 3 < n) :
    (calculatePenalty (n - 1)).citation_number = n ∧
    (calculatePenalty (n - 1)).fine_amount = 0 ∧
    (calculatePenalty (n - 1)).civic_course_hours = 0 ∧
    (calculatePenalty (n - 1)).civic_work_days = 0 ∧
    (calculatePenalty (n - 1)).jail_days = 15 + 5 * (n - 3) ∧
    (calculatePenalty (n - 1)).creates_criminal_record = true := by
  simp only [calculatePenalty]
  split_ifs with h1 h2 h3 <;> simp_all
  omega

/-- Witness for C6 at ordinal 6 (`calculatePenalty 5`): citation number
6 and jail days 30, as the claim instantiates. -/
theorem c6_beyond_third_citation_witness :
    (3 : Int) < 6 ∧
    ((calculatePenalty ((6 : Int) - 1)).citation_number = 6 ∧
     (calculatePenalty ((6 : Int) - 1)).fine_amount = 0 ∧
     (calculatePenalty ((6 : Int) - 1)).civic_course_hours = 0 ∧
     (calculatePenalty ((6 : Int) - 1)).civic_work_days = 0 ∧
     (calculatePenalty ((6 : Int) - 1)).jail_days = 15 + 5 * ((6 : Int) - 3) ∧
     (calculatePenalty ((6 : Int) - 1)).creates_criminal_record = true) :=
  ⟨by decide, c6_beyond_third_citation 6 (by decide)⟩

/-- C7: first and second citation outcomes, field by field. -/
theorem c7_first_and_second_citation :
    ((calculatePenalty 0).citation_number = 1 ∧
     (calculatePenalty 0).fine_amount = 400 ∧
     (calculatePenalty 0).civic_course_hours = 48 ∧
     (calculatePenalty 0).civic_work_days = 0 ∧
     (calculatePenalty 0).jail_days = 0 ∧
     (calculatePenalty 0).creates_criminal_record = false) ∧
    ((calculatePenalty 1).citation_number = 2 ∧
     (calculatePenalty 1).fine_amount = 400 ∧
     (calculatePenalty 1).civic_course_hours = 48 ∧
     (calculatePenalty 1).civic_work_days = 2 ∧
     (calculatePenalty 1).jail_days = 0 ∧
     (calculatePenalty 1).creates_criminal_record = false) := by
  decide

/-- C8: for `n ≥ 2`, jail days at ordinal `n + 2` (prior count `n + 1`)
strictly exceed jail days at ordinal `n + 1` (prior count `n`). -/
theorem c8_jail_days_strictly_increasing (n : Int) (h : 2 ≤ n) :
    (calculatePenalty n).jail_days < (calculatePenalty (n + 1)).jail_days := by
  simp only [calculatePenalty]
  split_ifs with h1 h2 h3 h4 h5 h6 <;> simp_all <;> omega

/-- Witness for C8 at `n = 2`: jail goes from 8 days (ordinal 3) to 20
days (ordinal 4). -/
theorem c8_jail_days_strictly_increasing_witness :
    (2 : Int) ≤ 2 ∧
    (calculatePenalty 2).jail_days < (calculatePenalty ((2 : Int) + 1)).jail_days :=
  ⟨by decide, c8_jail_days_strictly_increasing 2 (by decide)⟩

/-- Every branch of the ladder reports the ordinal back as
`citation_number`. -/
theorem calculatePenalty_citation_number (n : Int) :
    (calculatePenalty n).citation_number = n + 1 := by
  simp only [calculatePenalty]
  split_ifs <;> rfl

/-- Shape of a no-fault `createCitationDB` call on an existing citizen:
the citation row is appended, and the criminal-record row is appended
exactly when the computed penalty demands it. -/
theorem createCitationDB_noFault_eq (db : DBState) (data : CitationInput)
    (h : checkCitizenExistsDB db data.citizen_id = true) :
    createCitationDB db data TxFault.noFault =
      (let p := calculatePenalty ((countCitationsByCitizenDB db data.citizen_id : Nat) : Int)
       let row : CitationRow :=
         { citizen_id := data.citizen_id
           description := data.description
           fine_amount := p.fine_amount }
       { result := Except.ok
           { insertId := (db.citations ++ [row]).length
             penalty := p
             criminal_record_created := p.creates_criminal_record }
         finalState :=
           { citizens := db.citizens
             citations := db.citations ++ [row]
             criminal_records :=
               if p.creates_criminal_record = true then
                 db.criminal_records ++
                   [autoCriminalRecord data.citizen_id p.citation_number data.description]
               else db.criminal_records }
         connAcquired := true
         txOpened := true
         connReleased := true }) := by
  simp only [createCitationDB, h]
  split_ifs with h1 h2 <;> simp_all

/-- Fixture: citizen 7 exists and already has two citations on file, so
the next filing is the escalating third one. -/
def dbTwoPrior : DBState :=
  { citizens := [7]
    citations :=
      [{ citizen_id := 7, description := "ruido excesivo en la noche", fine_amount := 400 },
       { citizen_id := 7, description := "tirar basura en el parque", fine_amount := 400 }]
    criminal_records := [] }

/-- Fixture: the body of the third filing for citizen 7. -/
def inputThird : CitationInput :=
  { citizen_id := 7
    description := "escupir en la vía pública"
    fine_amount := none }

/-- Fixture: an empty database, so no citizen id exists. -/
def dbEmpty : DBState :=
  { citizens := [], citations := [], criminal_records := [] }

/-- Fixture: a filing that names a non-existent citizen. -/
def inputUnknown : CitationInput :=
  { citizen_id := 99
    description := "ruido excesivo"
    fine_amount := none }

/-- C2: on a successful no-fault filing for an existing citizen, exactly
one citation row is appended; exactly one criminal-record row — for the
same citizen, with default location, the system-generated description
embedding the ordinal and the citation's text, and the fixed crime-type
label (all packaged in `autoCriminalRecord`) — is appended if and only
if the computed penalty sets `creates_criminal_record`, which happens
exactly when the ordinal is at least 3. -/
theorem c2_escalation_dual_write (db : DBState) (data : CitationInput)
    (h : checkCitizenExistsDB db data.citizen_id = true) :
    ∃ r : CreateResult,
      (createCitationDB db data TxFault.noFault).result = Except.ok r ∧
      r.criminal_record_created =
        (calculatePenalty ((countCitationsByCitizenDB db data.citizen_id : Nat) : Int)).creates_criminal_record ∧
      (createCitationDB db data TxFault.noFault).finalState.citations =
        db.citations ++
          [{ citizen_id := data.citizen_id
             description := data.description
             fine_amount :=
               (calculatePenalty ((countCitationsByCitizenDB db data.citizen_id : Nat) : Int)).fine_amount }] ∧
      ((calculatePenalty ((countCitationsByCitizenDB db data.citizen_id : Nat) : Int)).creates_criminal_record = true →
        (createCitationDB db data TxFault.noFault).finalState.criminal_records =
          db.criminal_records ++
            [autoCriminalRecord data.citizen_id
              ((countCitationsByCitizenDB db data.citizen_id : Int) + 1) data.description]) ∧
      ((calculatePenalty ((countCitationsByCitizenDB db data.citizen_id : Nat) : Int)).creates_criminal_record = false →
        (createCitationDB db data TxFault.noFault).finalState.criminal_records =
          db.criminal_records) ∧
      ((calculatePenalty ((countCitationsByCitizenDB db data.citizen_id : Nat) : Int)).creates_criminal_record = true ↔
        3 ≤ countCitationsByCitizenDB db data.citizen_id + 1) := by
  rw [createCitationDB_noFault_eq db data h]
  dsimp only
  refine ⟨_, rfl, rfl, rfl, ?_, ?_, ?_⟩
  · intro hc
    rw [if_pos hc, calculatePenalty_citation_number]
  · intro hc
    simp only [hc]
    simp
  · rw [calculatePenalty_creates_iff]
    omega

/-- Witness for C2: filing citizen 7's third citation on `dbTwoPrior`. -/
theorem c2_escalation_dual_write_witness :
    checkCitizenExistsDB dbTwoPrior inputThird.citizen_id = true ∧
    (∃ r : CreateResult,
      (createCitationDB dbTwoPrior inputThird TxFault.noFault).result = Except.ok r ∧
      r.criminal_record_created =
        (calculatePenalty ((countCitationsByCitizenDB dbTwoPrior inputThird.citizen_id : Nat) : Int)).creates_criminal_record ∧
      (createCitationDB dbTwoPrior inputThird TxFault.noFault).finalState.citations =
        dbTwoPrior.citations ++
          [{ citizen_id := inputThird.citizen_id
             description := inputThird.description
             fine_amount :=
               (calculatePenalty ((countCitationsByCitizenDB dbTwoPrior inputThird.citizen_id : Nat) : Int)).fine_amount }] ∧
      ((calculatePenalty ((countCitationsByCitizenDB dbTwoPrior inputThird.citizen_id : Nat) : Int)).creates_criminal_record = true →
        (createCitationDB dbTwoPrior inputThird TxFault.noFault).finalState.criminal_records =
          dbTwoPrior.criminal_records ++
            [autoCriminalRecord inputThird.citizen_id
              ((countCitationsByCitizenDB dbTwoPrior inputThird.citizen_id : Int) + 1)
              inputThird.description]) ∧
      ((calculatePenalty ((countCitationsByCitizenDB dbTwoPrior inputThird.citizen_id : Nat) : Int)).creates_criminal_record = false →
        (createCitationDB dbTwoPrior inputThird TxFault.noFault).finalState.criminal_records =
          dbTwoPrior.criminal_records) ∧
      ((calculatePenalty ((countCitationsByCitizenDB dbTwoPrior inputThird.citizen_id : Nat) : Int)).creates_criminal_record = true ↔
        3 ≤ countCitationsByCitizenDB dbTwoPrior inputThird.citizen_id + 1)) :=
  ⟨by decide, c2_escalation_dual_write dbTwoPrior inputThird (by decide)⟩

/-- C3 counterexample: a `beginTransaction` rejection on the escalating
third filing.  `getConnection` (line 229) has already acquired the
pooled connection, but `beginTransaction` (line 230) rejects *before*
the `try`/`finally` of lines 232-266 is entered, so the function throws
with the connection acquired and never released — refuting "the
transactional connection is released on every exit path".  (The state
is still unchanged: nothing was written.) -/
theorem c3_counterexample_begin_transaction_leaks_connection :
    (createCitationDB dbTwoPrior inputThird TxFault.failBeginTransaction).result =
      Except.error CitationError.storageError ∧
    (createCitationDB dbTwoPrior inputThird TxFault.failBeginTransaction).connAcquired = true ∧
    (createCitationDB dbTwoPrior inputThird TxFault.failBeginTransaction).connReleased = false ∧
    (createCitationDB dbTwoPrior inputThird TxFault.failBeginTransaction).finalState = dbTwoPrior :=
  ⟨rfl, rfl, rfl, rfl⟩

/-- C3 (amended): on every error exit of `createCitationDB` the
database is exactly as before the call (so the citizen's citation count
and the criminal-record table are unchanged) and the error propagates —
an injected failure of either insert in the transactional phase
surfaces as a storage error.  The connection is released on every exit
path *except* a `beginTransaction` failure: there the acquired
connection leaks, because acquisition sits outside the `try`/`finally`
(on all other paths release equals acquisition). -/
theorem c3_rollback_and_release_amended (db : DBState) (data : CitationInput) (fault : TxFault) :
    (∀ e : CitationError,
       (createCitationDB db data fault).result = Except.error e →
       (createCitationDB db data fault).finalState = db ∧
       countCitationsByCitizenDB (createCitationDB db data fault).finalState data.citizen_id =
         countCitationsByCitizenDB db data.citizen_id ∧
       (createCitationDB db data fault).finalState.criminal_records = db.criminal_records) ∧
    (fault ≠ TxFault.failBeginTransaction →
       (createCitationDB db data fault).connReleased =
         (createCitationDB db data fault).connAcquired) ∧
    (checkCitizenExistsDB db data.citizen_id = true →
       fault = TxFault.failBeginTransaction →
       (createCitationDB db data fault).result = Except.error CitationError.storageError ∧
       (createCitationDB db data fault).connAcquired = true ∧
       (createCitationDB db data fault).connReleased = false) ∧
    (checkCitizenExistsDB db data.citizen_id = true →
       fault = TxFault.failCitationInsert →
       (createCitationDB db data fault).result = Except.error CitationError.storageError) ∧
    (checkCitizenExistsDB db data.citizen_id = true →
       (calculatePenalty ((countCitationsByCitizenDB db data.citizen_id : Nat) : Int)).creates_criminal_record = true →
       fault = TxFault.failRecordInsert →
       (createCitationDB db data fault).result = Except.error CitationError.storageError) := by
  simp only [createCitationDB]
  split_ifs <;> simp_all

/-- Witness for the amended C3: a record-insert fault on the escalating
third filing rolls the citation insert back too. -/
theorem c3_rollback_and_release_amended_witness :
    (createCitationDB dbTwoPrior inputThird TxFault.failRecordInsert).finalState = dbTwoPrior ∧
    countCitationsByCitizenDB
        (createCitationDB dbTwoPrior inputThird TxFault.failRecordInsert).finalState
        inputThird.citizen_id =
      countCitationsByCitizenDB dbTwoPrior inputThird.citizen_id ∧
    (createCitationDB dbTwoPrior inputThird TxFault.failRecordInsert).finalState.criminal_records =
      dbTwoPrior.criminal_records :=
  (c3_rollback_and_release_amended dbTwoPrior inputThird TxFault.failRecordInsert).1
    CitationError.storageError rfl

/-- C4: filing against an unknown citizen id fails with the not-found
error before any write: no transaction is opened, the connection is
never taken, and the state is untouched, whatever fault is pending. -/
theorem c4_unknown_citizen_rejected_before_write (db : DBState) (data : CitationInput)
    (fault : TxFault) (h : checkCitizenExistsDB db data.citizen_id = false) :
    (createCitationDB db data fault).result = Except.error CitationError.citizenNotFound ∧
    (createCitationDB db data fault).txOpened = false ∧
    (createCitationDB db data fault).finalState = db := by
  simp [createCitationDB, h]

/-- Witness for C4: citizen 99 does not exist in the empty database. -/
theorem c4_unknown_citizen_rejected_witness :
    (createCitationDB dbEmpty inputUnknown TxFault.noFault).result =
      Except.error CitationError.citizenNotFound ∧
    (createCitationDB dbEmpty inputUnknown TxFault.noFault).txOpened = false ∧
    (createCitationDB dbEmpty inputUnknown TxFault.noFault).finalState = dbEmpty :=
  c4_unknown_citizen_rejected_before_write dbEmpty inputUnknown TxFault.noFault (by decide)

/-- C9: the persisted row's `fine_amount` is exactly the calculator's
output for this citizen's ordinal, and the call is insensitive to any
caller-supplied `fine_amount` (on every fault path). -/
theorem c9_fine_always_from_calculator (db : DBState) (data : CitationInput)
    (h : checkCitizenExistsDB db data.citizen_id = true) :
    (createCitationDB db data TxFault.noFault).finalState.citations =
      db.citations ++
        [{ citizen_id := data.citizen_id
           description := data.description
           fine_amount :=
             (calculatePenalty ((countCitationsByCitizenDB db data.citizen_id : Nat) : Int)).fine_amount }] ∧
    ∀ (f : Option Int) (fault : TxFault),
      createCitationDB db { data with fine_amount := f } fault =
        createCitationDB db data fault := by
  constructor
  · rw [createCitationDB_noFault_eq db data h]
  · intro f fault
    cases data
    rfl

/-- Witness for C9 on the third filing for citizen 7. -/
theorem c9_fine_always_from_calculator_witness :
    (createCitationDB dbTwoPrior inputThird TxFault.noFault).finalState.citations =
      dbTwoPrior.citations ++
        [{ citizen_id := inputThird.citizen_id
           description := inputThird.description
           fine_amount :=
             (calculatePenalty ((countCitationsByCitizenDB dbTwoPrior inputThird.citizen_id : Nat) : Int)).fine_amount }] ∧
    ∀ (f : Option Int) (fault : TxFault),
      createCitationDB dbTwoPrior { inputThird with fine_amount := f } fault =
        createCitationDB dbTwoPrior inputThird fault :=
  c9_fine_always_from_calculator dbTwoPrior inputThird (by decide)

/-- C10: the controller recomputes the penalty from its own count; with
no interleaving write between the two counts (the sequential state
passed to both here), the `penalty_details` it answers with are exactly
the penalty `createCitationDB` used: same object in the result, the
persisted `fine_amount` is its fine, and the reported
`criminal_record_created` flag is its record flag. -/
theorem c10_controller_matches_model (db : DBState) (data : CitationInput)
    (h : checkCitizenExistsDB db data.citizen_id = true) :
    ∃ r : CreateResult,
      (createCitationDB db data TxFault.noFault).result = Except.ok r ∧
      r.penalty = calculatePenalty ((countCitationsByCitizenDB db data.citizen_id : Nat) : Int) ∧
      (createCitation db data TxFault.noFault).1.penalty_details = some r.penalty ∧
      (createCitation db data TxFault.noFault).1.criminal_record_created =
        some r.criminal_record_created ∧
      r.criminal_record_created = r.penalty.creates_criminal_record ∧
      (createCitation db data TxFault.noFault).2.citations =
        db.citations ++
          [{ citizen_id := data.citizen_id
             description := data.description
             fine_amount := r.penalty.fine_amount }] := by
  have hs := createCitationDB_noFault_eq db data h
  rw [hs]
  dsimp only
  refine ⟨_, rfl, rfl, ?_, ?_, rfl, ?_⟩ <;> simp [createCitation, hs]

/-- Witness for C10 on the third filing for citizen 7. -/
theorem c10_controller_matches_model_witness :
    ∃ r : CreateResult,
      (createCitationDB dbTwoPrior inputThird TxFault.noFault).result = Except.ok r ∧
      r.penalty = calculatePenalty ((countCitationsByCitizenDB dbTwoPrior inputThird.citizen_id : Nat) : Int) ∧
      (createCitation dbTwoPrior inputThird TxFault.noFault).1.penalty_details = some r.penalty ∧
      (createCitation dbTwoPrior inputThird TxFault.noFault).1.criminal_record_created =
        some r.criminal_record_created ∧
      r.criminal_record_created = r.penalty.creates_criminal_record ∧
      (createCitation dbTwoPrior inputThird TxFault.noFault).2.citations =
        dbTwoPrior.citations ++
          [{ citizen_id := inputThird.citizen_id
             description := inputThird.description
             fine_amount := r.penalty.fine_amount }] :=
  c10_controller_matches_model dbTwoPrior inputThird (by decide)
